import Mathlib

/-!
Verification of the core logic of the TodoList application (src/todo.py):
the urgency model (Task.complete_fields), the panic-to-colour mapping
(panic_to_rgb) and the recurrence backfill engine
(check_and_generate_recurring_tasks), shallowly embedded over the reals.

Python floats are modelled as real numbers.  Python truthiness of a
numeric/optional field (None and 0.0 are falsy) is modelled explicitly.
Python `int()` (truncation towards zero) and Python `%` on floats
(result has the sign of the divisor) are modelled by dedicated helpers.
-/

namespace TodoList

open scoped Classical

/-- Truncation towards zero, the behaviour of Python's `int()` on a float. -/
noncomputable def pyInt (x : ℝ) : ℤ := if 0 ≤ x then ⌊x⌋ else -⌊-x⌋

/-- Python's `%` on floats: for a positive modulus `m` the result is
`x - m * ⌊x / m⌋`, which lies in `[0, m)`. -/
noncomputable def pyMod (x m : ℝ) : ℝ := x - m * ⌊x / m⌋

/-- The Task record of src/todo.py (`Task.__init__`): optional numeric fields
are `Option ℝ` with `none` for Python `None`. -/
structure Task where
  name : String
  type : Option String := none
  due_date : Option ℝ := none
  remaining_days : Option ℝ := none
  estimated_hours : Option ℝ := none
  progress : ℝ := 0
  percent_time_required : Option ℝ := none
  panic_factor : Option ℝ := none

/-- The panic-factor computation of `Task.complete_fields` (src/todo.py lines
103-114), as a function of `hours_per_day`, the remaining hours and the
(possibly stale, possibly absent) `remaining_days` field.  The guards mirror
Python truthiness: `if hours_per_day` is `hours_per_day ≠ 0`, and
`needed_days > 0 and self.remaining_days` is `0 < needed_days` together with
`remaining_days` being present and nonzero. -/
noncomputable def panicOf (hours_per_day remaining_hours : ℝ) (rd : Option ℝ) : ℝ :=
  let needed_days := if hours_per_day ≠ 0 then remaining_hours / hours_per_day else 0
  let pr0 : ℝ :=
    match rd with
    | some r => if 0 < needed_days ∧ r ≠ 0 then r / needed_days else 0
    | none => 0
  let pr1 := pr0 - 1
  let pr2 := max 0 pr1
  let safety_interval_days : ℝ := 10
  let max_panic : ℝ := 10
  let pr3 := pr2 / (safety_interval_days - 1)
  let pr4 := max 0 (1 - pr3 ^ (1.5 : ℝ))
  pr4 * max_panic

/-- `Task.complete_fields` (src/todo.py lines 92-119), parameterised by the
process-wide `hours_per_day` setting and by `now` (Python reads
`time.time()`).  `remaining_days` is recomputed only when `due_date` is
truthy.  When `remaining_days` is truthy-positive and `hours_per_day = 0`,
Python raises ZeroDivisionError at the `percent_time_required` assignment;
the exception is caught, so the task is returned with only `remaining_days`
updated. -/
noncomputable def complete_fields (hours_per_day now : ℝ) (t : Task) : Task :=
  let t1 : Task :=
    match t.due_date with
    | none => t
    | some d => if d ≠ 0 then { t with remaining_days := some ((d - now) / 86400) } else t
  match t.estimated_hours with
  | none => { t1 with percent_time_required := some 0, panic_factor := some 0 }
  | some eh =>
    if 0 < eh then
      let remaining_hours := eh * (1 - t.progress / 100)
      match t1.remaining_days with
      | some rd =>
        if rd ≠ 0 ∧ 0 < rd then
          if hours_per_day = 0 then
            t1
          else
            { t1 with
              percent_time_required := some (remaining_hours / (rd * hours_per_day) * 100),
              panic_factor := some (panicOf hours_per_day remaining_hours t1.remaining_days) }
        else
          { t1 with
            percent_time_required := some (if 0 < remaining_hours then (100 : ℝ) else 0),
            panic_factor := some (panicOf hours_per_day remaining_hours t1.remaining_days) }
      | none =>
        { t1 with
          percent_time_required := some (if 0 < remaining_hours then (100 : ℝ) else 0),
          panic_factor := some (panicOf hours_per_day remaining_hours t1.remaining_days) }
    else { t1 with percent_time_required := some 0, panic_factor := some 0 }

/-- `panic_to_rgb` (src/todo.py lines 202-214): clamp to [0,10], then a
two-segment linear interpolation, components truncated by Python `int()`. -/
noncomputable def panic_to_rgb (panic : ℝ) : ℤ × ℤ × ℤ :=
  let panic := max 0 (min 10 panic)
  if panic ≤ 5 then
    let fraction := panic / 5
    (pyInt (0 + (255 - 0) * fraction), 255, 0)
  else
    let fraction := (panic - 5) / 5
    (255, pyInt (255 - 255 * fraction), 0)

/-- The raw `frequency` field of a recurring-template JSON record:
absent key, present but not convertible by `float()`, or a number. -/
inductive FreqField where
  | absent
  | invalid
  | num (f : ℝ)

/-- A recurring-template record (a JSON dict in src/todo.py).  The outer
`Option` on each field models presence of the key; for `type` the inner
`Option` models a JSON null value. -/
structure RecurringTemplate where
  name : Option String := none
  type : Option (Option String) := none
  frequency : FreqField := FreqField.absent
  enabled : Option Bool := none
  last_creation_date : Option ℝ := none
  estimated_hours : Option ℝ := none

/-- `float(template.get("frequency", 24))` under `try/except` (src/todo.py
lines 443-446): an absent key defaults to 24 and a non-convertible value
falls back to 24.0. -/
def effFrequency : FreqField → ℝ
  | FreqField.absent => 24
  | FreqField.invalid => 24
  | FreqField.num f => f

/-- `freq_sec = frequency * 3600` (src/todo.py line 447). -/
def freqSec (tmpl : RecurringTemplate) : ℝ := effFrequency tmpl.frequency * 3600

/-- The effective `last_creation` value (src/todo.py lines 448-451): the raw
field defaults to 0, and a falsy value (absent or 0) is seeded to
`now - freq_sec`. -/
noncomputable def effLastCreation (now : ℝ) (tmpl : RecurringTemplate) : ℝ :=
  let raw := tmpl.last_creation_date.getD 0
  if raw = 0 then now - freqSec tmpl else raw

/-- One generated occurrence (src/todo.py lines 455-462): the due date is the
start of the day containing `next_time` plus one day, the type defaults to
"recurring" when the key is absent, `estimated_hours` defaults to 0.01667,
and the urgency model runs on the fresh task. -/
noncomputable def occurrenceTask (hours_per_day now : ℝ) (tmpl : RecurringTemplate)
    (next_time : ℝ) : Task :=
  let due_date := next_time - pyMod next_time 86400 + 86400
  complete_fields hours_per_day now
    { name := tmpl.name.getD "Recurring Task"
      type := tmpl.type.getD (some "recurring")
      due_date := some due_date
      remaining_days := none
      estimated_hours := some (tmpl.estimated_hours.getD 0.01667)
      progress := 0
      percent_time_required := none
      panic_factor := none }

/-- The `while next_time <= now` loop of src/todo.py lines 454-465, with
explicit fuel.  It returns the scheduling instants emitted in order together
with the final value of `next_time`; `none` means the fuel ran out before
the loop finished (in particular, for a non-positive `freq_sec` the Python
loop never terminates once entered). -/
noncomputable def genLoop (now freq_sec : ℝ) : ℕ → ℝ → Option (List ℝ × ℝ)
  | 0, next_time => if next_time ≤ now then none else some ([], next_time)
  | fuel + 1, next_time =>
    if next_time ≤ now then
      match genLoop now freq_sec fuel (next_time + freq_sec) with
      | some (insts, final) => some (next_time :: insts, final)
      | none => none
    else some ([], next_time)

/-- The body of `check_and_generate_recurring_tasks` (src/todo.py lines
440-467) for a single template: a disabled template is skipped with its
`last_creation_date` untouched; otherwise the backfill loop runs and the
template's `last_creation_date` is set to
`next_time - freq_sec if next_time > now else now`.  The result is the list
of newly generated tasks and the new `last_creation_date` field. -/
noncomputable def generateForTemplate (hours_per_day now : ℝ) (fuel : ℕ)
    (tmpl : RecurringTemplate) : Option (List Task × Option ℝ) :=
  if tmpl.enabled.getD true = false then some ([], tmpl.last_creation_date)
  else
    match genLoop now (freqSec tmpl) fuel (effLastCreation now tmpl + freqSec tmpl) with
    | some (insts, next_time) =>
      some (insts.map (occurrenceTask hours_per_day now tmpl),
            some (if now < next_time then next_time - freqSec tmpl else now))
    | none => none

lemma cons_range_map (next f : ℝ) (n : ℕ) :
    next :: (List.range n).map (fun k : ℕ => next + f + f * (k : ℝ))
      = (List.range (n + 1)).map (fun k : ℕ => next + f * (k : ℝ)) := by
  rw [List.range_succ_eq_map, List.map_cons, List.map_map]
  refine congrArg₂ _ (by push_cast; ring) (List.map_congr_left ?_)
  intro k _
  simp only [Function.comp_apply]
  push_cast
  ring

lemma genLoop_some_spec (now f : ℝ) (fuel : ℕ) :
    ∀ (next : ℝ) (l : List ℝ) (nf : ℝ),
      genLoop now f fuel next = some (l, nf) →
      now < nf ∧ nf = next + f * l.length ∧
        l = (List.range l.length).map (fun k : ℕ => next + f * (k : ℝ)) ∧
        ∀ k < l.length, next + f * k ≤ now := by
  induction fuel with
  | zero =>
    intro next l nf h
    unfold genLoop at h
    split at h
    · exact absurd h (by simp)
    · next hgt =>
      obtain ⟨rfl, rfl⟩ : [] = l ∧ next = nf := by simpa using h
      exact ⟨lt_of_not_le hgt, by simp, by simp, by simp⟩
  | succ fuel ih =>
    intro next l nf h
    unfold genLoop at h
    split at h
    · next hle =>
      cases hrec : genLoop now f fuel (next + f) with
      | none => rw [hrec] at h; exact absurd h (by simp)
      | some p =>
        obtain ⟨insts, final⟩ := p
        rw [hrec] at h
        obtain ⟨rfl, rfl⟩ : next :: insts = l ∧ final = nf := by simpa using h
        obtain ⟨h1, h2, h3, h4⟩ := ih (next + f) insts final hrec
        refine ⟨h1, ?_, ?_, ?_⟩
        · rw [h2]; push_cast [List.length_cons]; ring
        · conv_lhs => rw [h3]
          simpa using cons_range_map next f insts.length
        · intro k hk
          match k with
          | 0 => simpa using hle
          | k + 1 =>
            have := h4 k (by simpa using hk)
            push_cast at this ⊢
            linarith
    · next hgt =>
      obtain ⟨rfl, rfl⟩ : [] = l ∧ next = nf := by simpa using h
      exact ⟨lt_of_not_le hgt, by simp, by simp, by simp⟩

lemma genLoop_eq_of (now f : ℝ) (n : ℕ) :
    ∀ (fuel : ℕ) (next : ℝ), n ≤ fuel →
      ¬ next + f * n ≤ now → (∀ k < n, next + f * k ≤ now) →
      genLoop now f fuel next =
        some ((List.range n).map (fun k : ℕ => next + f * (k : ℝ)), next + f * n) := by
  induction n with
  | zero =>
    intro fuel next _ hstop _
    have hgt : ¬ next ≤ now := by simpa using hstop
    cases fuel with
    | zero => unfold genLoop; rw [if_neg hgt]; simp
    | succ fuel => unfold genLoop; rw [if_neg hgt]; simp
  | succ n ih =>
    intro fuel next hfuel hstop hgo
    obtain ⟨fl, rfl⟩ : ∃ fl, fuel = fl + 1 := ⟨fuel - 1, by omega⟩
    unfold genLoop
    rw [if_pos (by simpa using hgo 0 (Nat.succ_pos n))]
    rw [ih fl (next + f) (by omega)
      (by push_cast at hstop ⊢; intro hc; exact hstop (by linarith))
      (fun k hk => by
        have := hgo (k + 1) (by omega)
        push_cast at this ⊢
        linarith)]
    show some (next :: (List.range n).map (fun k : ℕ => next + f + f * (k : ℝ)),
        next + f + f * (n : ℝ)) = _
    rw [cons_range_map next f n]
    refine congrArg some (congrArg₂ Prod.mk rfl ?_)
    push_cast
    ring

lemma generateForTemplate_run (hours_per_day now : ℝ) (fuel : ℕ) (tmpl : RecurringTemplate)
    (hen : tmpl.enabled.getD true = true) (n : ℕ) (hfuel : n ≤ fuel)
    (hstop : ¬ effLastCreation now tmpl + freqSec tmpl * ((n : ℝ) + 1) ≤ now)
    (hgo : ∀ k < n, effLastCreation now tmpl + freqSec tmpl * ((k : ℝ) + 1) ≤ now) :
    generateForTemplate hours_per_day now fuel tmpl
      = some ((List.range n).map fun k : ℕ =>
            occurrenceTask hours_per_day now tmpl
              (effLastCreation now tmpl + freqSec tmpl * ((k : ℝ) + 1)),
          some (if now < effLastCreation now tmpl + freqSec tmpl * ((n : ℝ) + 1)
                then effLastCreation now tmpl + freqSec tmpl * (n : ℝ) else now)) := by
  have shift : ∀ m : ℝ, effLastCreation now tmpl + freqSec tmpl + freqSec tmpl * m
      = effLastCreation now tmpl + freqSec tmpl * (m + 1) := by
    intro m; ring
  unfold generateForTemplate
  rw [if_neg (by rw [hen]; simp)]
  rw [genLoop_eq_of now (freqSec tmpl) n fuel (effLastCreation now tmpl + freqSec tmpl) hfuel
      (by rw [shift]; exact hstop)
      (fun k hk => by rw [shift]; exact hgo k hk)]
  show some (_, _) = _
  refine congrArg some (congrArg₂ Prod.mk ?_ ?_)
  · rw [List.map_map]
    refine List.map_congr_left fun k _ => ?_
    simp only [Function.comp_apply]
    rw [shift]
  · rw [shift ((n : ℝ))]
    by_cases hc : now < effLastCreation now tmpl + freqSec tmpl * ((n : ℝ) + 1)
    · rw [if_pos hc, if_pos hc]
      congr 1
      ring
    · rw [if_neg hc, if_neg hc]

lemma complete_fields_due_date (hours_per_day now : ℝ) (t : Task) :
    (complete_fields hours_per_day now t).due_date = t.due_date := by
  rcases t with ⟨name, ty, due, rd, eh, pr, ptr, pf⟩
  rcases due with _ | d <;> rcases rd with _ | r <;> rcases eh with _ | e <;>
    simp only [complete_fields] <;> split_ifs <;>
    first
    | rfl
    | (dsimp only; split_ifs <;> rfl)

lemma complete_fields_rd_of_due_none (hours_per_day now : ℝ) (t : Task)
    (h : t.due_date = none) :
    (complete_fields hours_per_day now t).remaining_days = t.remaining_days := by
  rcases t with ⟨name, ty, due, rd, eh, pr, ptr, pf⟩
  cases h
  rcases rd with _ | r <;> rcases eh with _ | e <;>
    simp only [complete_fields] <;> split_ifs <;> rfl

lemma panicOf_none (hours_per_day remaining_hours : ℝ) :
    panicOf hours_per_day remaining_hours none = 10 := by
  simp only [panicOf]
  rw [show (0 : ℝ) - 1 = -1 by norm_num]
  rw [max_eq_left (by norm_num : (-1 : ℝ) ≤ 0)]
  rw [show (0 : ℝ) / (10 - 1) = 0 by norm_num]
  rw [Real.zero_rpow (by norm_num : (1.5 : ℝ) ≠ 0)]
  norm_num

lemma panicOf_formula (hours_per_day remaining_hours r : ℝ)
    (hnd : 0 < remaining_hours / hours_per_day) :
    panicOf hours_per_day remaining_hours (some r)
      = 10 * max 0 (1 -
          (max 0 (r / (remaining_hours / hours_per_day) - 1) / 9) ^ (1.5 : ℝ)) := by
  have hhpd : hours_per_day ≠ 0 := by
    intro h
    rw [h, div_zero] at hnd
    exact lt_irrefl 0 hnd
  simp only [panicOf]
  rw [if_pos hhpd]
  by_cases hr : r = 0
  · subst hr
    rw [if_neg (by simp)]
    rw [zero_div]
    rw [show (10 : ℝ) - 1 = 9 by norm_num, mul_comm]
  · rw [if_pos ⟨hnd, hr⟩]
    rw [show (10 : ℝ) - 1 = 9 by norm_num, mul_comm]

lemma pyMod_add_day (x : ℝ) : pyMod (x + 86400) 86400 = pyMod x 86400 := by
  unfold pyMod
  rw [show (x + 86400) / 86400 = x / 86400 + 1 by field_simp]
  rw [Int.floor_add_one]
  push_cast
  ring

lemma occurrenceTask_due_date (hours_per_day now : ℝ) (tmpl : RecurringTemplate) (x : ℝ) :
    (occurrenceTask hours_per_day now tmpl x).due_date
      = some (x - pyMod x 86400 + 86400) := by
  unfold occurrenceTask
  rw [complete_fields_due_date]

lemma complete_fields_main (hours_per_day now : ℝ) (t : Task) (d e : ℝ)
    (hd : t.due_date = some d) (hd0 : d ≠ 0)
    (he : t.estimated_hours = some e) (he0 : 0 < e)
    (hhpd : hours_per_day ≠ 0) :
    (complete_fields hours_per_day now t).remaining_days = some ((d - now) / 86400) ∧
    (complete_fields hours_per_day now t).percent_time_required
      = some (if 0 < (d - now) / 86400
              then e * (1 - t.progress / 100) / ((d - now) / 86400 * hours_per_day) * 100
              else if 0 < e * (1 - t.progress / 100) then (100 : ℝ) else 0) ∧
    (complete_fields hours_per_day now t).panic_factor
      = some (panicOf hours_per_day (e * (1 - t.progress / 100))
          (some ((d - now) / 86400))) := by
  rcases t with ⟨name, ty, due, rd, eh, pr, ptr, pf⟩
  cases hd
  cases he
  simp only [complete_fields]
  rw [if_pos hd0, if_pos he0]
  dsimp only
  by_cases hrd : 0 < (d - now) / 86400
  · rw [if_pos ⟨ne_of_gt hrd, hrd⟩, if_neg hhpd, if_pos hrd]
    exact ⟨rfl, rfl, rfl⟩
  · rw [if_neg (fun hc => hrd hc.2), if_neg hrd]
    exact ⟨rfl, rfl, rfl⟩

/-- C3: for a task with a (truthy) due date and positive estimated hours,
with positive needed days, the recomputed panic factor equals
10 * max(0, 1 - ((max(0, remaining_days / needed_days - 1)) / 9) ^ 1.5),
and in particular equals 10 at zero slack (remaining_days = needed_days). -/
theorem panic_factor_formula_spec (hours_per_day now : ℝ) (t : Task) (d e : ℝ)
    (hd : t.due_date = some d) (hd0 : d ≠ 0)
    (he : t.estimated_hours = some e) (he0 : 0 < e)
    (hnd : 0 < e * (1 - t.progress / 100) / hours_per_day) :
    (complete_fields hours_per_day now t).panic_factor
      = some (10 * max 0 (1 -
          (max 0 ((d - now) / 86400 / (e * (1 - t.progress / 100) / hours_per_day) - 1) / 9)
            ^ (1.5 : ℝ))) ∧
    ((d - now) / 86400 = e * (1 - t.progress / 100) / hours_per_day →
      (complete_fields hours_per_day now t).panic_factor = some 10) := by
  have hhpd : hours_per_day ≠ 0 := by
    intro h
    rw [h, div_zero] at hnd
    exact lt_irrefl 0 hnd
  have hmain := (complete_fields_main hours_per_day now t d e hd hd0 he he0 hhpd).2.2
  rw [panicOf_formula _ _ _ hnd] at hmain
  refine ⟨hmain, fun heq => ?_⟩
  rw [hmain, heq, div_self (ne_of_gt hnd)]
  rw [show (1 : ℝ) - 1 = 0 by norm_num, max_self, zero_div]
  rw [Real.zero_rpow (by norm_num : (1.5 : ℝ) ≠ 0)]
  norm_num

/-- Concrete task for the C3 witness: 10 estimated hours at progress 50 due
at instant 54000, so that remaining days equal needed days at 8 hours per
day and `now = 0`. -/
noncomputable def taskC3 : Task :=
  { name := "a", due_date := some 54000, estimated_hours := some 10, progress := 50 }

/-- Witness for C3: zero slack yields panic factor exactly 10. -/
theorem panic_factor_formula_spec_witness :
    (complete_fields 8 0 taskC3).panic_factor = some 10 :=
  (panic_factor_formula_spec 8 0 taskC3 54000 10 rfl (by norm_num) rfl (by norm_num)
    (by norm_num [taskC3])).2 (by norm_num [taskC3])

/-- C4: for a task with a (truthy) due date and positive estimated hours,
the recomputed remaining_days is (due - now)/86400, and
percent_time_required is remaining_hours / (remaining_days * hours_per_day)
* 100 when remaining_days > 0, else 100 when remaining hours are positive
and 0 otherwise. -/
theorem percent_time_required_spec (hours_per_day now : ℝ) (t : Task) (d e : ℝ)
    (hd : t.due_date = some d) (hd0 : d ≠ 0)
    (he : t.estimated_hours = some e) (he0 : 0 < e)
    (hhpd : 0 < hours_per_day) :
    (complete_fields hours_per_day now t).remaining_days = some ((d - now) / 86400) ∧
    (complete_fields hours_per_day now t).percent_time_required
      = some (if 0 < (d - now) / 86400
              then e * (1 - t.progress / 100) / ((d - now) / 86400 * hours_per_day) * 100
              else if 0 < e * (1 - t.progress / 100) then (100 : ℝ) else 0) := by
  have h := complete_fields_main hours_per_day now t d e hd hd0 he he0 (ne_of_gt hhpd)
  exact ⟨h.1, h.2.1⟩

/-- Concrete task for the C4 witness: the worked example of the spec,
10 estimated hours at progress 50, due two days from `now = 0`. -/
noncomputable def taskC4 : Task :=
  { name := "b", due_date := some 172800, estimated_hours := some 10, progress := 50 }

/-- Witness for C4: the spec's example evaluates to remaining_days = 2 and
percent_time_required = 31.25. -/
theorem percent_time_required_spec_witness :
    (complete_fields 8 0 taskC4).remaining_days = some 2 ∧
    (complete_fields 8 0 taskC4).percent_time_required = some 31.25 := by
  have h := percent_time_required_spec 8 0 taskC4 172800 10 rfl (by norm_num) rfl
    (by norm_num) (by norm_num)
  constructor
  · rw [h.1]
    norm_num
  · rw [h.2]
    rw [if_pos (by norm_num : (0 : ℝ) < (172800 - 0) / 86400)]
    norm_num [taskC4]

/-- A fresh task with no due date and no estimated hours, exactly what
`Task("x")` constructs. -/
noncomputable def taskC1 : Task := { name := "x" }

/-- C1 counterexample: for a task with absent due_date, complete_fields does
not leave the derived outputs absent - percent_time_required and
panic_factor are both assigned 0. -/
theorem due_absent_fields_not_absent_cex :
    (complete_fields 8 0 taskC1).percent_time_required = some 0 ∧
    (complete_fields 8 0 taskC1).panic_factor = some 0 ∧
    (complete_fields 8 0 taskC1).percent_time_required ≠ none ∧
    (complete_fields 8 0 taskC1).panic_factor ≠ none :=
  ⟨rfl, rfl, Option.some_ne_none _, Option.some_ne_none _⟩

/-- C1 (amended): when due_date is absent, complete_fields leaves
remaining_days unchanged (absent stays absent), but percent_time_required
and panic_factor are assigned rather than left absent: both 0 when
estimated_hours is absent or non-positive; otherwise percent_time_required
is 100 or 0 according to the sign of the remaining hours and panic_factor
is 10. -/
theorem due_absent_outputs_assigned (hours_per_day now : ℝ) (t : Task)
    (hdue : t.due_date = none) (hrd : t.remaining_days = none) :
    (complete_fields hours_per_day now t).remaining_days = none ∧
    (t.estimated_hours = none →
      (complete_fields hours_per_day now t).percent_time_required = some 0 ∧
      (complete_fields hours_per_day now t).panic_factor = some 0) ∧
    (∀ e, t.estimated_hours = some e → ¬ 0 < e →
      (complete_fields hours_per_day now t).percent_time_required = some 0 ∧
      (complete_fields hours_per_day now t).panic_factor = some 0) ∧
    (∀ e, t.estimated_hours = some e → 0 < e →
      (complete_fields hours_per_day now t).percent_time_required
        = some (if 0 < e * (1 - t.progress / 100) then (100 : ℝ) else 0) ∧
      (complete_fields hours_per_day now t).panic_factor = some 10) := by
  rcases t with ⟨name, ty, due, rd, eh, pr, ptr, pf⟩
  cases hdue
  cases hrd
  refine ⟨?_, ?_, ?_, ?_⟩
  · rcases eh with _ | e
    · rfl
    · simp only [complete_fields]
      split_ifs <;> rfl
  · intro h
    cases h
    exact ⟨rfl, rfl⟩
  · intro e h hne
    cases h
    simp only [complete_fields]
    rw [if_neg hne]
    exact ⟨rfl, rfl⟩
  · intro e h hpos
    cases h
    simp only [complete_fields]
    rw [if_pos hpos]
    dsimp only
    refine ⟨rfl, ?_⟩
    rw [panicOf_none]

/-- Witness for the amended C1 at the fresh task. -/
theorem due_absent_outputs_assigned_witness :
    (complete_fields 8 0 taskC1).remaining_days = none ∧
    (complete_fields 8 0 taskC1).percent_time_required = some 0 ∧
    (complete_fields 8 0 taskC1).panic_factor = some 0 := by
  have h := due_absent_outputs_assigned 8 0 taskC1 rfl rfl
  exact ⟨h.1, (h.2.1 rfl).1, (h.2.1 rfl).2⟩

/-- C10: when due_date is None, complete_fields leaves remaining_days
exactly at its previous value (neither recomputed nor cleared), so a stale
value persists across recomputation passes. -/
theorem stale_remaining_days_persists (hours_per_day now : ℝ) (t : Task)
    (h : t.due_date = none) :
    (complete_fields hours_per_day now t).remaining_days = t.remaining_days :=
  complete_fields_rd_of_due_none hours_per_day now t h

/-- A task with no due date but a stale remaining_days value. -/
noncomputable def taskC10 : Task := { name := "c", remaining_days := some 5 }

/-- Witness for C10: the stale remaining_days value 5 survives the pass. -/
theorem stale_remaining_days_persists_witness :
    (complete_fields 8 0 taskC10).remaining_days = some 5 :=
  (stale_remaining_days_persists 8 0 taskC10 rfl).trans rfl

/-- C7: with fixed positive needed days, the recomputed panic factor is
non-increasing as the due date (hence the slack remaining_days -
needed_days) grows, and is exactly 0 once slack is at least nine times the
needed days. -/
theorem panic_monotone_pinned_spec (hours_per_day now : ℝ) (t : Task) (d1 d2 e : ℝ)
    (he : t.estimated_hours = some e) (he0 : 0 < e)
    (hnd : 0 < e * (1 - t.progress / 100) / hours_per_day)
    (hd1 : d1 ≠ 0) (hd2 : d2 ≠ 0) (hle : d1 ≤ d2) :
    ∀ q1 q2,
      (complete_fields hours_per_day now { t with due_date := some d1 }).panic_factor
        = some q1 →
      (complete_fields hours_per_day now { t with due_date := some d2 }).panic_factor
        = some q2 →
      q2 ≤ q1 ∧
      (9 * (e * (1 - t.progress / 100) / hours_per_day)
          ≤ (d2 - now) / 86400 - e * (1 - t.progress / 100) / hours_per_day → q2 = 0) := by
  intro q1 q2 hq1 hq2
  have hhpd : hours_per_day ≠ 0 := by
    intro h
    rw [h, div_zero] at hnd
    exact lt_irrefl 0 hnd
  have hm1 := (complete_fields_main hours_per_day now { t with due_date := some d1 } d1 e
    rfl hd1 he he0 hhpd).2.2
  have hm2 := (complete_fields_main hours_per_day now { t with due_date := some d2 } d2 e
    rfl hd2 he he0 hhpd).2.2
  dsimp only at hm1 hm2
  rw [panicOf_formula _ _ _ hnd] at hm1 hm2
  obtain rfl : q1 = _ := Option.some.inj (hq1.symm.trans hm1)
  obtain rfl : q2 = _ := Option.some.inj (hq2.symm.trans hm2)
  set rh := e * (1 - t.progress / 100) with hrh
  set nd := rh / hours_per_day with hndd
  set rd1 := (d1 - now) / 86400 with hrd1
  set rd2 := (d2 - now) / 86400 with hrd2
  have hrd : rd1 ≤ rd2 := by
    rw [hrd1, hrd2]
    exact (div_le_div_iff_of_pos_right (by norm_num : (0:ℝ) < 86400)).mpr (by linarith)
  have hand1 : (0:ℝ) ≤ max 0 (rd1 / nd - 1) / 9 :=
    div_nonneg (le_max_left _ _) (by norm_num)
  have haa : max 0 (rd1 / nd - 1) / 9 ≤ max 0 (rd2 / nd - 1) / 9 := by
    refine (div_le_div_iff_of_pos_right (by norm_num : (0:ℝ) < 9)).mpr
      (max_le_max le_rfl (sub_le_sub_right ?_ 1))
    exact (div_le_div_iff_of_pos_right hnd).mpr hrd
  have hpow : (max 0 (rd1 / nd - 1) / 9) ^ (1.5:ℝ) ≤ (max 0 (rd2 / nd - 1) / 9) ^ (1.5:ℝ) :=
    Real.rpow_le_rpow hand1 haa (by norm_num)
  constructor
  · have hmx : max 0 (1 - (max 0 (rd2 / nd - 1) / 9) ^ (1.5:ℝ))
        ≤ max 0 (1 - (max 0 (rd1 / nd - 1) / 9) ^ (1.5:ℝ)) :=
      max_le_max le_rfl (by linarith)
    linarith
  · intro hs
    have h10 : (10:ℝ) ≤ rd2 / nd := by
      rw [le_div_iff₀ hnd]
      linarith
    have hone : (1:ℝ) ≤ max 0 (rd2 / nd - 1) / 9 := by
      rw [le_div_iff₀ (by norm_num : (0:ℝ) < 9)]
      calc (1:ℝ) * 9 = 9 := by norm_num
        _ ≤ rd2 / nd - 1 := by linarith
        _ ≤ max 0 (rd2 / nd - 1) := le_max_right _ _
    have hge1 : (1:ℝ) ≤ (max 0 (rd2 / nd - 1) / 9) ^ (1.5:ℝ) := by
      calc (1:ℝ) = (1:ℝ) ^ (1.5:ℝ) := (Real.one_rpow _).symm
        _ ≤ _ := Real.rpow_le_rpow (by norm_num) hone (by norm_num)
    have hz : max 0 (1 - (max 0 (rd2 / nd - 1) / 9) ^ (1.5:ℝ)) = 0 :=
      max_eq_left (by linarith)
    rw [hz]
    ring


/-- Concrete task for the C7 witness: 8 estimated hours at progress 0, so
needed days equal 1 at 8 hours per day. -/
noncomputable def taskC7 : Task := { name := "d", estimated_hours := some 8, progress := 0 }

/-- Witness for C7: with needed days 1, panic is 10 at one remaining day
and 0 at ten remaining days, and the pinned-to-zero implication fires. -/
theorem panic_monotone_pinned_spec_witness :
    (0:ℝ) ≤ 10 ∧
    (9 * ((8:ℝ) * (1 - taskC7.progress / 100) / 8)
        ≤ (864000 - 0) / 86400 - 8 * (1 - taskC7.progress / 100) / 8 → (0:ℝ) = 0) := by
  have hm1 := (complete_fields_main 8 0 { taskC7 with due_date := some 86400 } 86400 8 rfl
    (by norm_num) rfl (by norm_num) (by norm_num)).2.2
  rw [panicOf_formula _ _ _ (by norm_num [taskC7])] at hm1
  have e1 : (86400 - (0:ℝ)) / 86400 / (8 * (1 - ({ taskC7 with due_date := some 86400 } : Task).progress / 100) / 8) - 1 = 0 := by
    norm_num [taskC7]
  rw [e1, max_self, zero_div, Real.zero_rpow (by norm_num : (1.5:ℝ) ≠ 0)] at hm1
  rw [show (1:ℝ) - 0 = 1 by norm_num, max_eq_right (by norm_num : (0:ℝ) ≤ 1)] at hm1
  rw [show (10:ℝ) * 1 = 10 by norm_num] at hm1
  have hm2 := (complete_fields_main 8 0 { taskC7 with due_date := some 864000 } 864000 8 rfl
    (by norm_num) rfl (by norm_num) (by norm_num)).2.2
  rw [panicOf_formula _ _ _ (by norm_num [taskC7])] at hm2
  have e2 : (864000 - (0:ℝ)) / 86400 / (8 * (1 - ({ taskC7 with due_date := some 864000 } : Task).progress / 100) / 8) - 1 = 9 := by
    norm_num [taskC7]
  rw [e2, max_eq_right (by norm_num : (0:ℝ) ≤ 9)] at hm2
  rw [show (9:ℝ) / 9 = 1 by norm_num, Real.one_rpow] at hm2
  rw [show (1:ℝ) - 1 = 0 by norm_num, max_self, mul_zero] at hm2
  exact panic_monotone_pinned_spec 8 0 taskC7 86400 864000 8 rfl (by norm_num)
    (by norm_num [taskC7]) (by norm_num) (by norm_num) (by norm_num) 10 0 hm1 hm2

lemma pyInt_nonneg (x : ℝ) (h : 0 ≤ x) : 0 ≤ pyInt x := by
  rw [pyInt, if_pos h]
  exact Int.floor_nonneg.mpr h

lemma pyInt_le (x : ℝ) (b : ℤ) (h0 : 0 ≤ x) (hb : x ≤ (b : ℝ)) : pyInt x ≤ b := by
  rw [pyInt, if_pos h0]
  calc ⌊x⌋ ≤ ⌊(b : ℝ)⌋ := Int.floor_le_floor hb
    _ = b := Int.floor_intCast b

lemma pyInt_eval (x : ℝ) (z : ℤ) (h0 : 0 ≤ x) (he : x = (z : ℝ)) : pyInt x = z := by
  rw [pyInt, if_pos h0, he, Int.floor_intCast]

lemma panic_to_rgb_eval_low (p : ℝ) (h0 : 0 ≤ p) (h5 : p ≤ 5) :
    panic_to_rgb p = (pyInt (0 + (255 - 0) * (p / 5)), 255, 0) := by
  have hcl : max 0 (min 10 p) = p := by
    rw [min_eq_right (by linarith), max_eq_right h0]
  simp only [panic_to_rgb, hcl]
  rw [if_pos h5]

lemma panic_to_rgb_eval_high (p : ℝ) (h5 : 5 < p) (h10 : p ≤ 10) :
    panic_to_rgb p = (255, pyInt (255 - 255 * ((p - 5) / 5)), 0) := by
  have hcl : max 0 (min 10 p) = p := by
    rw [min_eq_right h10, max_eq_right (by linarith)]
  simp only [panic_to_rgb, hcl]
  rw [if_neg (not_le.mpr h5)]

/-- C8: panic_to_rgb clamps its input to [0,10], returns integer components
in [0,255], equals the green-to-yellow interpolation on fraction panic/5 for
panic in [0,5] and the yellow-to-red interpolation on fraction (panic-5)/5
for panic in (5,10], and hits the three endpoints exactly. -/
theorem panic_to_rgb_spec (p : ℝ) :
    panic_to_rgb p = panic_to_rgb (max 0 (min 10 p)) ∧
    (0 ≤ (panic_to_rgb p).1 ∧ (panic_to_rgb p).1 ≤ 255 ∧
     0 ≤ (panic_to_rgb p).2.1 ∧ (panic_to_rgb p).2.1 ≤ 255 ∧
     0 ≤ (panic_to_rgb p).2.2 ∧ (panic_to_rgb p).2.2 ≤ 255) ∧
    (0 ≤ p → p ≤ 5 → panic_to_rgb p = (pyInt (255 * (p / 5)), 255, 0)) ∧
    (5 < p → p ≤ 10 → panic_to_rgb p = (255, pyInt (255 - 255 * ((p - 5) / 5)), 0)) ∧
    panic_to_rgb 0 = (0, 255, 0) ∧
    panic_to_rgb 5 = (255, 255, 0) ∧
    panic_to_rgb 10 = (255, 0, 0) := by
  have hclamp : max 0 (min 10 (max 0 (min 10 p))) = max 0 (min 10 p) := by
    have hx : max 0 (min 10 p) ≤ 10 := max_le (by norm_num) (min_le_left _ _)
    rw [min_eq_right hx, ← max_assoc, max_self]
  have hfirst : panic_to_rgb p = panic_to_rgb (max 0 (min 10 p)) := by
    simp only [panic_to_rgb, hclamp]
  have h0c : (0 : ℝ) ≤ max 0 (min 10 p) := le_max_left _ _
  have hc10 : max 0 (min 10 p) ≤ 10 := max_le (by norm_num) (min_le_left _ _)
  refine ⟨hfirst, ?_, ?_, ?_, ?_, ?_, ?_⟩
  · rw [hfirst]
    by_cases hc5 : max 0 (min 10 p) ≤ 5
    · rw [panic_to_rgb_eval_low _ h0c hc5]
      have ha0 : (0 : ℝ) ≤ 0 + (255 - 0) * (max 0 (min 10 p) / 5) := by
        have := div_nonneg h0c (by norm_num : (0:ℝ) ≤ 5)
        nlinarith
      have ha255 : 0 + (255 - 0) * (max 0 (min 10 p) / 5) ≤ ((255 : ℤ) : ℝ) := by
        push_cast
        nlinarith
      exact ⟨pyInt_nonneg _ ha0, pyInt_le _ _ ha0 ha255, by norm_num, by norm_num,
        by norm_num, by norm_num⟩
    · push_neg at hc5
      rw [panic_to_rgb_eval_high _ hc5 hc10]
      have ha0 : (0 : ℝ) ≤ 255 - 255 * ((max 0 (min 10 p) - 5) / 5) := by nlinarith
      have ha255 : 255 - 255 * ((max 0 (min 10 p) - 5) / 5) ≤ ((255 : ℤ) : ℝ) := by
        push_cast
        nlinarith
      exact ⟨by norm_num, by norm_num, pyInt_nonneg _ ha0, pyInt_le _ _ ha0 ha255,
        by norm_num, by norm_num⟩
  · intro h1 h2
    rw [panic_to_rgb_eval_low p h1 h2,
      show (0 : ℝ) + (255 - 0) * (p / 5) = 255 * (p / 5) by ring]
  · intro h1 h2
    rw [panic_to_rgb_eval_high p h1 h2]
  · rw [panic_to_rgb_eval_low 0 le_rfl (by norm_num)]
    rw [pyInt_eval _ 0 (by norm_num) (by norm_num)]
  · rw [panic_to_rgb_eval_low 5 (by norm_num) le_rfl]
    rw [pyInt_eval _ 255 (by norm_num) (by push_cast; norm_num)]
  · rw [panic_to_rgb_eval_high 10 (by norm_num) le_rfl]
    rw [pyInt_eval _ 0 (by norm_num) (by norm_num)]

/-- Witness for C8: the segment formulas at interior points 3 and 7. -/
theorem panic_to_rgb_spec_witness :
    panic_to_rgb 3 = (pyInt (255 * ((3 : ℝ) / 5)), 255, 0) ∧
    panic_to_rgb 7 = (255, pyInt (255 - 255 * (((7 : ℝ) - 5) / 5)), 0) ∧
    panic_to_rgb 10 = (255, 0, 0) :=
  ⟨(panic_to_rgb_spec 3).2.2.1 (by norm_num) (by norm_num),
   (panic_to_rgb_spec 7).2.2.2.1 (by norm_num) (by norm_num),
   (panic_to_rgb_spec 10).2.2.2.2.2.2⟩

/-- C9: a template whose frequency field is absent, or present but not
convertible to a number, does not make the backfill fail: the whole pass
behaves exactly as if the frequency were 24 hours. -/
theorem frequency_default_spec (hours_per_day now : ℝ) (fuel : ℕ)
    (tmpl : RecurringTemplate) :
    generateForTemplate hours_per_day now fuel { tmpl with frequency := FreqField.absent }
      = generateForTemplate hours_per_day now fuel { tmpl with frequency := FreqField.num 24 } ∧
    generateForTemplate hours_per_day now fuel { tmpl with frequency := FreqField.invalid }
      = generateForTemplate hours_per_day now fuel { tmpl with frequency := FreqField.num 24 } :=
  ⟨rfl, rfl⟩


/-- C2 (amended): for an enabled template whose backfill loop completes,
the updated last_creation_date always equals next_time - freq_sec (the loop
exits with next_time > now, so the "else now" branch of line 467 is dead
code): this is the scheduling instant of the last occurrence generated when
at least one was generated, and the unchanged effective last_creation value
- not now - when no occurrence was due yet. -/
theorem watermark_spec (hours_per_day now : ℝ) (fuel : ℕ) (tmpl : RecurringTemplate)
    (hen : tmpl.enabled.getD true = true) (insts : List ℝ) (nf : ℝ)
    (hloop : genLoop now (freqSec tmpl) fuel (effLastCreation now tmpl + freqSec tmpl)
      = some (insts, nf)) :
    generateForTemplate hours_per_day now fuel tmpl
      = some (insts.map (occurrenceTask hours_per_day now tmpl),
          some (nf - freqSec tmpl)) ∧
    (insts ≠ [] → insts.getLast? = some (nf - freqSec tmpl)) ∧
    (insts = [] → nf - freqSec tmpl = effLastCreation now tmpl) := by
  obtain ⟨hlt, hnf, hstruct, hall⟩ :=
    genLoop_some_spec now (freqSec tmpl) fuel _ insts nf hloop
  refine ⟨?_, ?_, ?_⟩
  · unfold generateForTemplate
    rw [if_neg (by rw [hen]; simp), hloop]
    show some (_, _) = _
    rw [if_pos hlt]
  · intro hne
    obtain ⟨m, hm⟩ : ∃ m, insts.length = m + 1 :=
      ⟨insts.length - 1, (Nat.succ_pred_eq_of_pos (List.length_pos.mpr hne)).symm⟩
    have hlast : insts.getLast? = some (effLastCreation now tmpl + freqSec tmpl
        + freqSec tmpl * (m : ℝ)) := by
      conv_lhs => rw [hstruct, hm]
      rw [List.range_succ, List.map_append, List.map_cons, List.map_nil, List.getLast?_concat]
    rw [hlast]
    congr 1
    rw [hnf, hm]
    push_cast
    ring
  · intro hempty
    rw [hempty] at hnf
    simp only [List.length_nil, Nat.cast_zero, mul_zero, add_zero] at hnf
    rw [hnf]
    ring

/-- Enabled daily template whose watermark is 100 seconds before now =
1000000. -/
noncomputable def tmplC2 : RecurringTemplate :=
  { enabled := some true, frequency := FreqField.num 24, last_creation_date := some 999900 }

/-- C2 counterexample: when no occurrence is due, the updated
last_creation_date is the old watermark 999900, not now = 1000000. -/
theorem watermark_not_now_cex :
    generateForTemplate 8 1000000 1 tmplC2 = some ([], some 999900) ∧
    (999900 : ℝ) ≠ 1000000 := by
  have hfs : freqSec tmplC2 = 86400 := by
    rw [freqSec]
    norm_num [tmplC2, effFrequency]
  have hel : effLastCreation 1000000 tmplC2 = 999900 := by
    rw [effLastCreation]
    norm_num [tmplC2]
  constructor
  · rw [generateForTemplate_run 8 1000000 1 tmplC2 rfl 0 (Nat.zero_le _)
      (by rw [hel, hfs]; push_cast; norm_num)
      (fun k hk => absurd hk (Nat.not_lt_zero k))]
    rw [hel, hfs]
    push_cast
    norm_num
  · norm_num


/-- C5 (amended): re-running backfill immediately with the same now, from
the template state produced by a completed first run, generates zero
occurrences - provided the first run's stored last_creation_date is
nonzero (a zero watermark is falsy and would be re-seeded). -/
theorem backfill_idempotent_spec (hours_per_day now : ℝ) (fuel fuel2 : ℕ)
    (tmpl : RecurringTemplate) (hen : tmpl.enabled.getD true = true)
    (tasks : List Task) (l1 : ℝ)
    (h1 : generateForTemplate hours_per_day now fuel tmpl = some (tasks, some l1))
    (hl1 : l1 ≠ 0) :
    generateForTemplate hours_per_day now fuel2
      { tmpl with last_creation_date := some l1 } = some ([], some l1) := by
  unfold generateForTemplate at h1
  rw [if_neg (by rw [hen]; simp)] at h1
  cases hloop : genLoop now (freqSec tmpl) fuel (effLastCreation now tmpl + freqSec tmpl) with
  | none =>
    rw [hloop] at h1
    exact absurd h1 (by simp)
  | some p =>
    obtain ⟨insts, nf⟩ := p
    rw [hloop] at h1
    obtain ⟨hlt, hnf, -, -⟩ := genLoop_some_spec now (freqSec tmpl) fuel _ insts nf hloop
    have h1x : some (insts.map (occurrenceTask hours_per_day now tmpl),
        some (if now < nf then nf - freqSec tmpl else now)) = some (tasks, some l1) := h1
    rw [if_pos hlt] at h1x
    have hl1v : nf - freqSec tmpl = l1 :=
      Option.some.inj (congrArg Prod.snd (Option.some.inj h1x))
    have hel : effLastCreation now { tmpl with last_creation_date := some l1 } = l1 := by
      rw [effLastCreation]
      show (if (some l1).getD 0 = 0 then _ else (some l1).getD 0) = l1
      rw [Option.getD_some, if_neg hl1]
    have hfs2 : freqSec { tmpl with last_creation_date := some l1 } = freqSec tmpl := rfl
    have hstop : ¬ effLastCreation now { tmpl with last_creation_date := some l1 }
        + freqSec { tmpl with last_creation_date := some l1 } * (((0 : ℕ) : ℝ) + 1) ≤ now := by
      rw [hel, hfs2]
      push_cast
      intro hc
      rw [← hl1v] at hc
      have : nf ≤ now := by linarith
      exact absurd hlt (not_lt.mpr this)
    rw [generateForTemplate_run hours_per_day now fuel2
      { tmpl with last_creation_date := some l1 } hen 0 (Nat.zero_le _) hstop
      (fun k hk => absurd hk (Nat.not_lt_zero k))]
    rw [hel, hfs2]
    have hcond : now < l1 + freqSec tmpl * (((0 : ℕ) : ℝ) + 1) := by
      push_cast
      rw [← hl1v]
      linarith
    rw [if_pos hcond]
    simp

/-- Enabled hourly template with watermark -3600, one hour before the
epoch. -/
noncomputable def tmplC5 : RecurringTemplate :=
  { enabled := some true, frequency := FreqField.num 1,
    last_creation_date := some (-3600) }

/-- C5 counterexample: the first pass at now = 100 generates the occurrence
scheduled at instant 0 and stores last_creation_date = 0; the second pass
re-seeds the falsy zero watermark and generates one more occurrence instead
of none. -/
theorem second_backfill_not_empty_cex :
    Option.map Prod.snd (generateForTemplate 8 100 2 tmplC5) = some (some 0) ∧
    Option.map (fun r : List Task × Option ℝ => r.1.length)
      (generateForTemplate 8 100 2 { tmplC5 with last_creation_date := some 0 })
      = some 1 ∧
    (1 : ℕ) ≠ 0 := by
  have hfs : freqSec tmplC5 = 3600 := by
    rw [freqSec]
    norm_num [tmplC5, effFrequency]
  have hel : effLastCreation 100 tmplC5 = -3600 := by
    rw [effLastCreation]
    norm_num [tmplC5]
  have hfs2 : freqSec { tmplC5 with last_creation_date := some 0 } = 3600 := hfs
  have hel2 : effLastCreation 100 { tmplC5 with last_creation_date := some 0 }
      = 100 - 3600 := by
    rw [effLastCreation]
    show (if (some (0:ℝ)).getD 0 = 0 then (100:ℝ) - freqSec _ else (some (0:ℝ)).getD 0) = 100 - 3600
    rw [Option.getD_some, if_pos rfl, hfs2]
  refine ⟨?_, ?_, one_ne_zero⟩
  · rw [generateForTemplate_run 8 100 2 tmplC5 rfl 1 (by norm_num)
      (by rw [hel, hfs]; push_cast; norm_num)
      (by intro k hk; interval_cases k; rw [hel, hfs]; push_cast; norm_num)]
    rw [hel, hfs]
    push_cast
    norm_num
  · rw [generateForTemplate_run 8 100 2 { tmplC5 with last_creation_date := some 0 } rfl 1
      (by norm_num)
      (by rw [hel2, hfs2]; push_cast; norm_num)
      (by intro k hk; interval_cases k; rw [hel2, hfs2]; push_cast; norm_num)]
    simp


/-- Enabled daily template for the C5 witness, watermark 999900. -/
noncomputable def tmplC5w : RecurringTemplate :=
  { enabled := some true, frequency := FreqField.num 24,
    last_creation_date := some 999900 }

/-- Witness for the amended C5: after a first pass that generated nothing
(watermark 999900 nonzero), the second pass generates nothing as well. -/
theorem backfill_idempotent_spec_witness :
    generateForTemplate 8 1000000 3 { tmplC5w with last_creation_date := some 999900 }
      = some ([], some 999900) := by
  have hfs : freqSec tmplC5w = 86400 := by
    rw [freqSec]
    norm_num [tmplC5w, effFrequency]
  have hel : effLastCreation 1000000 tmplC5w = 999900 := by
    rw [effLastCreation]
    norm_num [tmplC5w]
  have h1 : generateForTemplate 8 1000000 3 tmplC5w = some ([], some 999900) := by
    rw [generateForTemplate_run 8 1000000 3 tmplC5w rfl 0 (Nat.zero_le _)
      (by rw [hel, hfs]; push_cast; norm_num)
      (fun k hk => absurd hk (Nat.not_lt_zero k))]
    rw [hel, hfs]
    push_cast
    norm_num
  exact backfill_idempotent_spec 8 1000000 3 3 tmplC5w rfl [] 999900 h1 (by norm_num)

/-- Enabled daily template whose watermark sits exactly three periods
before now = 864000. -/
noncomputable def tmplC6 : RecurringTemplate :=
  { enabled := some true, frequency := FreqField.num 24,
    last_creation_date := some (864000 - ((3 : ℕ) : ℝ) * 86400) }

/-- C6: an enabled template with frequency 24 hours and truthy
last_creation_date exactly m periods before now backfills exactly m
occurrences, emitted in chronological order of their scheduling instants
(one per missed period), the updated last_creation_date is now, and
consecutive occurrences' due dates are exactly 86400 seconds apart. -/
theorem backfill_catch_up_spec (hours_per_day now : ℝ) (m fuel : ℕ)
    (tmpl : RecurringTemplate)
    (hen : tmpl.enabled.getD true = true)
    (hf : tmpl.frequency = FreqField.num 24)
    (hlcd : tmpl.last_creation_date = some (now - (m : ℝ) * 86400))
    (h0 : now - (m : ℝ) * 86400 ≠ 0)
    (hfuel : m ≤ fuel) :
    generateForTemplate hours_per_day now fuel tmpl
      = some ((List.range m).map fun k : ℕ =>
            occurrenceTask hours_per_day now tmpl
              (now - (m : ℝ) * 86400 + 86400 * ((k : ℝ) + 1)),
          some now) ∧
    ((List.range m).map fun k : ℕ =>
        occurrenceTask hours_per_day now tmpl
          (now - (m : ℝ) * 86400 + 86400 * ((k : ℝ) + 1))).length = m ∧
    (∀ k : ℕ,
      (occurrenceTask hours_per_day now tmpl
          (now - (m : ℝ) * 86400 + 86400 * ((k : ℝ) + 2))).due_date
        = Option.map (fun dd : ℝ => dd + 86400)
            (occurrenceTask hours_per_day now tmpl
              (now - (m : ℝ) * 86400 + 86400 * ((k : ℝ) + 1))).due_date) := by
  have hfs : freqSec tmpl = 86400 := by
    rw [freqSec, hf]
    norm_num [effFrequency]
  have hel : effLastCreation now tmpl = now - (m : ℝ) * 86400 := by
    rw [effLastCreation, hlcd]
    show (if (some (now - (m : ℝ) * 86400)).getD 0 = 0 then _
          else (some (now - (m : ℝ) * 86400)).getD 0) = _
    rw [Option.getD_some, if_neg h0]
  refine ⟨?_, ?_, ?_⟩
  · rw [generateForTemplate_run hours_per_day now fuel tmpl hen m hfuel
      (by rw [hel, hfs]; intro hc; linarith)
      (fun k hk => by
        rw [hel, hfs]
        have hk1 : (k : ℝ) + 1 ≤ (m : ℝ) := by exact_mod_cast Nat.succ_le_of_lt hk
        nlinarith)]
    simp only [hel, hfs]
    have hcond : now < now - (m : ℝ) * 86400 + 86400 * ((m : ℝ) + 1) := by nlinarith
    rw [if_pos hcond]
    refine congrArg some (congrArg₂ Prod.mk rfl (congrArg some ?_))
    ring
  · rw [List.length_map, List.length_range]
  · intro k
    rw [occurrenceTask_due_date, occurrenceTask_due_date]
    rw [show now - (m : ℝ) * 86400 + 86400 * ((k : ℝ) + 2)
        = (now - (m : ℝ) * 86400 + 86400 * ((k : ℝ) + 1)) + 86400 by ring]
    rw [pyMod_add_day]
    rw [Option.map_some']
    refine congrArg some ?_
    ring


/-- Witness for C6: three missed daily periods yield exactly three
occurrences and the watermark advances to now. -/
theorem backfill_catch_up_spec_witness :
    generateForTemplate 8 864000 3 tmplC6
      = some ((List.range 3).map fun k : ℕ =>
            occurrenceTask 8 864000 tmplC6
              (864000 - ((3 : ℕ) : ℝ) * 86400 + 86400 * ((k : ℝ) + 1)),
          some 864000) ∧
    ((List.range 3).map fun k : ℕ =>
        occurrenceTask 8 864000 tmplC6
          (864000 - ((3 : ℕ) : ℝ) * 86400 + 86400 * ((k : ℝ) + 1))).length = 3 := by
  have h := backfill_catch_up_spec 8 864000 3 3 tmplC6 rfl rfl rfl
    (by push_cast; norm_num) le_rfl
  exact ⟨h.1, h.2.1⟩

/-- Witness for the amended C2: a completed loop with no occurrence due
leaves the watermark at the effective last_creation value. -/
theorem watermark_spec_witness :
    generateForTemplate 8 1000000 1 tmplC2
      = some (([] : List ℝ).map (occurrenceTask 8 1000000 tmplC2),
          some (effLastCreation 1000000 tmplC2 + freqSec tmplC2 - freqSec tmplC2)) ∧
    effLastCreation 1000000 tmplC2 + freqSec tmplC2 - freqSec tmplC2
      = effLastCreation 1000000 tmplC2 := by
  have hfs : freqSec tmplC2 = 86400 := by
    rw [freqSec]
    norm_num [tmplC2, effFrequency]
  have hel : effLastCreation 1000000 tmplC2 = 999900 := by
    rw [effLastCreation]
    norm_num [tmplC2]
  have hloop : genLoop 1000000 (freqSec tmplC2) 1
      (effLastCreation 1000000 tmplC2 + freqSec tmplC2)
      = some ([], effLastCreation 1000000 tmplC2 + freqSec tmplC2) := by
    have h := genLoop_eq_of 1000000 (freqSec tmplC2) 0 1
      (effLastCreation 1000000 tmplC2 + freqSec tmplC2) (Nat.zero_le _)
      (by rw [hel, hfs]; push_cast; norm_num)
      (fun k hk => absurd hk (Nat.not_lt_zero k))
    simpa using h
  have h := watermark_spec 8 1000000 1 tmplC2 rfl [] _ hloop
  exact ⟨h.1, h.2.2 rfl⟩

end TodoList
